import Mathlib

/-!
# Shallow embedding of two oxc_linter rules

This file embeds, from the Rust sources, the two lint rules

* `crates/oxc_linter/src/rules/oxc/bad_array_method_on_arguments.rs`
  (`BadArrayMethodOnArguments::run`, `ARRAY_METHODS`), and
* `crates/oxc_linter/src/rules/oxc/uninvoked_array_callback.rs`
  (`UninvokedArrayCallback::run`),

together with the small slice of the oxc AST / semantic-node infrastructure
they touch. AST nodes form a parent-pointer graph (`Ctx`), exactly the view
the rules use through `ctx.nodes().parent_node` / `parent_kind`. Each rule is
a pure function from a context and a node to the list of diagnostics it
emits for that node (the Rust `ctx.diagnostic(..)` side effect becomes the
returned list; each `return` becomes `[]`).
-/

set_option autoImplicit false
set_option maxRecDepth 8192

/-- A source span, `oxc_span::Span { start: u32, end: u32 }`
(`end` is a Lean keyword, rendered `stop`). -/
structure Span where
  start : Nat
  stop : Nat
deriving DecidableEq, Repr

/-- An `IdentifierName` / `PrivateIdentifier`: a name together with its span. -/
structure IdentifierName where
  name : String
  span : Span
deriving DecidableEq, Repr

/-- The bracketed key expression of a computed member access, restricted to
the shapes the rules distinguish. `stringLiteral` is `Expression::StringLiteral`,
`templateNoSubst` a `TemplateLiteral` with a single quasi and no interpolation,
`templateWithSubst` a template literal with interpolation, `identifierKey` an
identifier reference used as key, `otherKey` any other expression. Each carries
its span (`GetSpan::span`). -/
inductive PropKey where
  | stringLiteral (value : String) (span : Span)
  | templateNoSubst (cooked : String) (span : Span)
  | templateWithSubst (span : Span)
  | identifierKey (name : String) (span : Span)
  | otherKey (span : Span)
deriving DecidableEq, Repr

/-- `GetSpan::span` for a computed key expression. -/
def PropKey.span : PropKey → Span
  | .stringLiteral _ s => s
  | .templateNoSubst _ s => s
  | .templateWithSubst s => s
  | .identifierKey _ s => s
  | .otherKey s => s

/-- Modelled from the spec: `ComputedMemberExpression::static_property_name`
(defined in the `oxc_ast` crate, whose source is not part of this repository
snapshot): the bracketed key resolves to a literal string exactly when it is a
string literal or a template literal without interpolation; a variable key or
an interpolated template yields `none` (the detector never evaluates
expressions). -/
def staticPropertyName : PropKey → Option String
  | .stringLiteral v _ => some v
  | .templateNoSubst v _ => some v
  | .templateWithSubst _ => none
  | .identifierKey _ _ => none
  | .otherKey _ => none

/-- `oxc_ast::ast::StaticMemberExpression`: `object.property`. The object is a
child node in the graph; the rule reads only `span`, `property.name`,
`property.span`. -/
structure StaticMemberExpr where
  span : Span
  property : IdentifierName
deriving DecidableEq, Repr

/-- `oxc_ast::ast::ComputedMemberExpression`: `object[expression]`. -/
structure ComputedMemberExpr where
  span : Span
  expression : PropKey
deriving DecidableEq, Repr

/-- `oxc_ast::ast::PrivateFieldExpression`: `object.#field`. -/
structure PrivateFieldExpr where
  span : Span
  field : IdentifierName
deriving DecidableEq, Repr

/-- `oxc_ast::ast::MemberExpression`, the three-variant enum. -/
inductive MemberExpression where
  | staticMemberExpression (e : StaticMemberExpr)
  | computedMemberExpression (e : ComputedMemberExpr)
  | privateFieldExpression (e : PrivateFieldExpr)
deriving DecidableEq, Repr

/-- A call or constructor argument (`oxc_ast::ast::Argument`), restricted to
the variants the rules pattern-match on; `exprRef` points at the argument
expression node by id (covering every other expression argument). -/
inductive Argument where
  | numericLiteral (span : Span)
  | stringLiteral (value : String) (span : Span)
  | functionExpression (span : Span)
  | arrowFunctionExpression (span : Span)
  | spreadElement (span : Span)
  | exprRef (id : Nat)
deriving DecidableEq, Repr

/-- The callee expression of a `new` expression, restricted to what
`Expression::is_specific_id` distinguishes: a plain identifier reference, or
anything else. -/
inductive NewCallee where
  | ident (name : String)
  | otherCallee
deriving DecidableEq, Repr

/-- `oxc_ast::ast::CallExpression`. `callee` is the id of the callee child
node (never read by either rule); `arguments` is the argument list. -/
structure CallExpr where
  span : Span
  callee : Option Nat
  arguments : List Argument
deriving DecidableEq, Repr

/-- `oxc_ast::ast::NewExpression`. -/
structure NewExpr where
  span : Span
  callee : NewCallee
  arguments : List Argument
deriving DecidableEq, Repr

/-- The slice of `oxc_ast::AstKind` the two rules inspect; every kind they do
not distinguish is `other`. In this oxc version a computed member access is
visited both as the enum node `AstKind::MemberExpression(..)` and as the
variant node `AstKind::ComputedMemberExpression(..)`. -/
inductive AstKind where
  | identifierReference (name : String)
  | memberExpression (m : MemberExpression)
  | computedMemberExpression (e : ComputedMemberExpr)
  | callExpression (c : CallExpr)
  | newExpression (n : NewExpr)
  | other
deriving DecidableEq, Repr

/-- `AstKind::is_specific_id_reference(name)`: the node is an identifier
reference with exactly that name. -/
def AstKind.isSpecificIdReference (k : AstKind) (name : String) : Bool :=
  match k with
  | .identifierReference n => n == name
  | _ => false

/-- `Expression::is_specific_id(name)` for a `new` expression callee. -/
def NewCallee.isSpecificId (c : NewCallee) (name : String) : Bool :=
  match c with
  | .ident n => n == name
  | _ => false

/-- A semantic AST node: id, kind, and parent id (`none` at the root). -/
structure AstNode where
  id : Nat
  kind : AstKind
  parent : Option Nat
deriving DecidableEq, Repr

/-- The lint context's node graph (`ctx.nodes()`). -/
structure Ctx where
  nodes : List AstNode
deriving DecidableEq, Repr

/-- Node lookup by id. -/
def Ctx.getNode (ctx : Ctx) (id : Nat) : Option AstNode :=
  ctx.nodes.find? (fun n => n.id == id)

/-- `ctx.nodes().parent_node(node.id())`. -/
def Ctx.parentNode (ctx : Ctx) (node : AstNode) : Option AstNode :=
  match node.parent with
  | none => none
  | some pid => ctx.getNode pid

/-- `ctx.nodes().parent_kind(node.id())`. -/
def Ctx.parentKind (ctx : Ctx) (node : AstNode) : Option AstKind :=
  (ctx.parentNode node).map AstNode.kind

/-- A diagnostic (`OxcDiagnostic`): warning message, help text, labeled spans
in order. -/
structure Diagnostic where
  message : String
  help : String
  labels : List Span
deriving DecidableEq, Repr

/-- Lexicographic comparison of character lists by code point — on the ASCII
strings of `ARRAY_METHODS` exactly Rust's byte-lexicographic `Ord for &str`. -/
def charListCompare : List Char → List Char → Ordering
  | [], [] => .eq
  | [], _ :: _ => .lt
  | _ :: _, [] => .gt
  | a :: as, b :: bs =>
    if a < b then .lt else if b < a then .gt else charListCompare as bs

/-- Total comparison of strings, as Rust `Ord for &str` compares the table
entries. -/
def strCompare (a b : String) : Ordering :=
  charListCompare a.data b.data

/-- Core loop of Rust `slice::binary_search` on the interval `[lo, hi)`:
returns the index of a matching element, or `none`. The loop shrinks the
interval by at least one per round, so a fuel of `hi - lo + 1` steps is never
exhausted. -/
def binarySearchGo (xs : List String) (target : String) :
    Nat → Nat → Nat → Option Nat
  | 0, _, _ => none
  | fuel + 1, lo, hi =>
    if lo < hi then
      match strCompare (xs.getD ((lo + hi) / 2) "") target with
      | .lt => binarySearchGo xs target fuel ((lo + hi) / 2 + 1) hi
      | .gt => binarySearchGo xs target fuel lo ((lo + hi) / 2)
      | .eq => some ((lo + hi) / 2)
    else
      none

/-- Rust `slice::binary_search(&target)`, as used on `ARRAY_METHODS`. -/
def binarySearch (xs : List String) (target : String) : Option Nat :=
  binarySearchGo xs target (xs.length + 1) 0 xs.length

/-- The `ARRAY_METHODS` table of
`bad_array_method_on_arguments.rs`, entry for entry. -/
def ARRAY_METHODS : List String := [
  "@@iterator",
  "at",
  "concat", "copyWithin",
  "entries", "every",
  "fill", "filter", "find", "findIndex", "flat", "flatMap", "forEach",
  "includes", "indexOf",
  "join",
  "keys",
  "lastIndexOf",
  "map",
  "pop", "push", "push",
  "reduce", "reduceRight", "reverse",
  "shift", "slice", "some", "sort", "splice",
  "unshift",
  "values"]

/-- `bad_array_method_on_arguments_diagnostic(method_name, span)`. -/
def badArrayMethodOnArgumentsDiagnostic (methodName : String) (span : Span) :
    Diagnostic :=
  { message := "Bad array method on arguments"
    help := "The 'arguments' object does not have a '" ++ methodName ++
      "()' method. If you intended to use an array method, consider converting the 'arguments' object to an array or using an ES6 rest parameter instead."
    labels := [span] }

/-- `uninvoked_array_callback_diagnostic(cb_span, arr_span)`. -/
def uninvokedArrayCallbackDiagnostic (cbSpan arrSpan : Span) : Diagnostic :=
  { message := "Uninvoked array callback"
    help := "consider filling the array with `undefined` values using `Array.prototype.fill()`"
    labels := [cbSpan, arrSpan] }

/-- `matches!(kind, AstKind::MemberExpression(_) | AstKind::ComputedMemberExpression(_))`. -/
def isMemberOrComputedKind (k : AstKind) : Bool :=
  match k with
  | .memberExpression _ => true
  | .computedMemberExpression _ => true
  | _ => false

/-- `matches!(kind, AstKind::ComputedMemberExpression(_))`. -/
def isComputedMemberExprKind (k : AstKind) : Bool :=
  match k with
  | .computedMemberExpression _ => true
  | _ => false

/-- The emitting `match member_expr` tail of `BadArrayMethodOnArguments::run`
(lines 83-104): the diagnostics `ctx.diagnostic(..)` records once the
call-expression ancestor requirement has been met. -/
def BadArrayMethodOnArguments.emitDiagnostics (memberExpr : AstKind) :
    List Diagnostic :=
  match memberExpr with
  | .memberExpression (.staticMemberExpression expr) =>
    if (binarySearch ARRAY_METHODS expr.property.name).isSome then
      [badArrayMethodOnArgumentsDiagnostic expr.property.name expr.span]
    else []
  | .computedMemberExpression expr =>
    match staticPropertyName expr.expression with
    | none => []
    | some name =>
      if (binarySearch ARRAY_METHODS name).isSome then
        [badArrayMethodOnArgumentsDiagnostic name expr.span]
      else []
  | _ => []

/-- `BadArrayMethodOnArguments::run`, returning the diagnostics emitted for
`node` (each early `return` of the Rust body becomes `[]`). -/
def BadArrayMethodOnArguments.run (ctx : Ctx) (node : AstNode) :
    List Diagnostic :=
  if ¬ node.kind.isSpecificIdReference "arguments" then [] else
  match ctx.parentNode node with
  | none => []
  | some parent =>
    if ¬ isMemberOrComputedKind parent.kind then [] else
    let memberExpr := parent.kind
    match ctx.parentNode parent with
    | none => []
    | some grandparent =>
      let callShapeOk : Bool :=
        if isComputedMemberExprKind memberExpr then
          match ctx.parentKind grandparent with
          | some (.callExpression _) => true
          | _ => false
        else
          match grandparent.kind with
          | .callExpression _ => true
          | _ => false
      if ¬ callShapeOk then [] else
      BadArrayMethodOnArguments.emitDiagnostics memberExpr

/-- `matches!(arguments.first(), Some(Argument::NumericLiteral(_)))`. -/
def firstArgIsNumericLiteral (args : List Argument) : Bool :=
  match args.head? with
  | some (.numericLiteral _) => true
  | _ => false

/-- `matches!(arguments.first(), Some(Argument::FunctionExpression(_)
| Argument::ArrowFunctionExpression(_)))`. -/
def firstArgIsFunctionLike (args : List Argument) : Bool :=
  match args.head? with
  | some (.functionExpression _) => true
  | some (.arrowFunctionExpression _) => true
  | _ => false

/-- The `let property_span = match member_expr { .. }` of
`UninvokedArrayCallback::run` (lines 84-88): the callback-side labeled span
for each member-expression variant. -/
def memberPropertySpan (m : MemberExpression) : Span :=
  match m with
  | .computedMemberExpression expr => expr.expression.span
  | .staticMemberExpression expr => expr.property.span
  | .privateFieldExpression expr => expr.field.span

/-- `UninvokedArrayCallback::run`, returning the diagnostics emitted for
`node`. -/
def UninvokedArrayCallback.run (ctx : Ctx) (node : AstNode) :
    List Diagnostic :=
  match node.kind with
  | .newExpression newExpr =>
    if ¬ newExpr.callee.isSpecificId "Array" then [] else
    if newExpr.arguments.length ≠ 1 then [] else
    if ¬ firstArgIsNumericLiteral newExpr.arguments then [] else
    match ctx.parentNode node with
    | none => []
    | some memberExprNode =>
      match memberExprNode.kind with
      | .memberExpression memberExpr =>
        match ctx.parentKind memberExprNode with
        | some (.callExpression callExpr) =>
          if ¬ firstArgIsFunctionLike callExpr.arguments then [] else
          [uninvokedArrayCallbackDiagnostic
            (memberPropertySpan memberExpr) newExpr.span]
        | _ => []
      | .computedMemberExpression computedMemberExpr =>
        match ctx.parentNode memberExprNode with
        | none => []
        | some parent =>
          match ctx.parentKind parent with
          | some (.callExpression callExpr) =>
            if ¬ firstArgIsFunctionLike callExpr.arguments then [] else
            [uninvokedArrayCallbackDiagnostic
              computedMemberExpr.expression.span newExpr.span]
          | _ => []
      | _ => []
  | _ => []

/-- Insertion of a string into a list, keeping entries that compare
less-or-equal in front: the building block of the sorting model. -/
def insertSorted (x : String) : List String → List String
  | [] => [x]
  | y :: ys => if strCompare x y = .gt then y :: insertSorted x ys else x :: y :: ys

/-- A sort by the same total order Rust `sort_unstable` uses in
`test_array_is_sorted` (on equal keys all correct sorts of a string list
produce the same list, so the choice of algorithm is immaterial). -/
def sortStrings : List String → List String
  | [] => []
  | x :: xs => insertSorted x (sortStrings xs)

/-! ## Concrete node graphs

Each context below is the parent-pointer graph of one of the JavaScript
snippets from the rules' own test suites, restricted to the nodes on the
walk the rules perform; spans are byte offsets into the snippet. -/

/-- The graph of `function fn() {arguments.<name>(..)}`: identifier
`arguments` (node 0) inside the static member access `arguments.<name>`
(node 1) inside a call expression (node 2) inside the function body
(node 3). -/
def argumentsStaticCallCtx (name : String) (memberSpan propSpan : Span)
    (callArgs : List Argument) : Ctx :=
  ⟨[⟨0, .identifierReference "arguments", some 1⟩,
    ⟨1, .memberExpression (.staticMemberExpression ⟨memberSpan, ⟨name, propSpan⟩⟩),
      some 2⟩,
    ⟨2, .callExpression ⟨⟨memberSpan.start, memberSpan.stop + 10⟩, some 1, callArgs⟩,
      some 3⟩,
    ⟨3, .other, none⟩]⟩

/-- Node 0 of `argumentsStaticCallCtx`: the `arguments` identifier. -/
def argumentsIdNode : AstNode := ⟨0, .identifierReference "arguments", some 1⟩

/-- The call expression of `function fn() { foo(arguments.map) }`: callee is
the identifier `foo` (node 0) and the single argument is the member access
`arguments.map` (node 2). -/
def fooCallExpr : CallExpr := ⟨⟨15, 33⟩, some 0, [.exprRef 2]⟩

/-- The member-access node of `foo(arguments.map)`: `arguments.map`,
property `map` at bytes 29-32. -/
def fooCallMemberNode : AstNode :=
  ⟨2, .memberExpression (.staticMemberExpression ⟨⟨19, 32⟩, ⟨"map", ⟨29, 32⟩⟩⟩), some 3⟩

/-- The graph of `function fn() { foo(arguments.map) }`: the member access
is an argument of the call, not its callee. -/
def fooCallCtx : Ctx :=
  ⟨[⟨0, .identifierReference "foo", some 3⟩,
    ⟨1, .identifierReference "arguments", some 2⟩,
    fooCallMemberNode,
    ⟨3, .callExpression fooCallExpr, some 4⟩,
    ⟨4, .other, none⟩]⟩

/-- Node 1 of `fooCallCtx`: the `arguments` identifier. -/
def fooCallArgumentsNode : AstNode := ⟨1, .identifierReference "arguments", some 2⟩

/-- The computed member access `arguments['map']` of
`function fn() {arguments['map'](() => {})}`: key `'map'` at bytes 25-30. -/
def computedMapAccess : ComputedMemberExpr :=
  ⟨⟨15, 31⟩, .stringLiteral "map" ⟨25, 30⟩⟩

/-- A graph for `arguments['map'](() => {})` in which the computed member
node's own parent is directly the call expression (so the grandparent of the
identifier is a call but the great-grandparent is not). -/
def computedGrandparentCallCtx : Ctx :=
  ⟨[⟨0, .identifierReference "arguments", some 1⟩,
    ⟨1, .computedMemberExpression computedMapAccess, some 2⟩,
    ⟨2, .callExpression ⟨⟨15, 41⟩, some 1, [.arrowFunctionExpression ⟨32, 40⟩]⟩,
      some 3⟩,
    ⟨3, .other, none⟩]⟩

/-- The graph of `arguments['map'](() => {})` as this oxc version builds it:
the variant node `ComputedMemberExpression` (node 1) sits inside the enum
node `MemberExpression` (node 2), whose parent is the call (node 3) — so the
call is the great-grandparent of the identifier. -/
def computedWrappedCallCtx : Ctx :=
  ⟨[⟨0, .identifierReference "arguments", some 1⟩,
    ⟨1, .computedMemberExpression computedMapAccess, some 2⟩,
    ⟨2, .memberExpression (.computedMemberExpression computedMapAccess), some 3⟩,
    ⟨3, .callExpression ⟨⟨15, 41⟩, some 2, [.arrowFunctionExpression ⟨32, 40⟩]⟩,
      some 4⟩,
    ⟨4, .other, none⟩]⟩

/-- As `computedWrappedCallCtx` but for `arguments[key](() => {})`: the
bracketed key is the identifier `key`, which does not resolve to a literal
string. -/
def computedIdentKeyCtx : Ctx :=
  ⟨[⟨0, .identifierReference "arguments", some 1⟩,
    ⟨1, .computedMemberExpression ⟨⟨15, 29⟩, .identifierKey "key" ⟨25, 28⟩⟩, some 2⟩,
    ⟨2, .memberExpression (.computedMemberExpression
        ⟨⟨15, 29⟩, .identifierKey "key" ⟨25, 28⟩⟩), some 3⟩,
    ⟨3, .callExpression ⟨⟨15, 39⟩, some 2, [.arrowFunctionExpression ⟨30, 38⟩]⟩,
      some 4⟩,
    ⟨4, .other, none⟩]⟩

/-- `new Array(5)` of `const list = new Array(5).map(_ => {})`: a single
numeric-literal argument (the `5` at bytes 23-24). -/
def newArrayFiveExpr : NewExpr := ⟨⟨13, 25⟩, .ident "Array", [.numericLiteral ⟨23, 24⟩]⟩

/-- The graph of `const list = new Array(5).map(_ => {})`: the constructor
(node 0) inside `new Array(5).map` (node 1) inside the call (node 2). -/
def newArrayMapCtx : Ctx :=
  ⟨[⟨0, .newExpression newArrayFiveExpr, some 1⟩,
    ⟨1, .memberExpression (.staticMemberExpression ⟨⟨13, 29⟩, ⟨"map", ⟨26, 29⟩⟩⟩),
      some 2⟩,
    ⟨2, .callExpression ⟨⟨13, 38⟩, some 1, [.arrowFunctionExpression ⟨30, 37⟩]⟩,
      some 3⟩,
    ⟨3, .other, none⟩]⟩

/-- Node 0 of the `new Array(5)` graphs. -/
def newArrayNode : AstNode := ⟨0, .newExpression newArrayFiveExpr, some 1⟩

/-- The graph of `const list = new Array(5).fill().map(_ => {})`: the
constructor's grandparent is the argumentless `.fill()` call, and only the
great-great-grandparent call carries the callback. -/
def newArrayFillMapCtx : Ctx :=
  ⟨[⟨0, .newExpression newArrayFiveExpr, some 1⟩,
    ⟨1, .memberExpression (.staticMemberExpression ⟨⟨13, 30⟩, ⟨"fill", ⟨26, 30⟩⟩⟩),
      some 2⟩,
    ⟨2, .callExpression ⟨⟨13, 32⟩, some 1, []⟩, some 3⟩,
    ⟨3, .memberExpression (.staticMemberExpression ⟨⟨13, 36⟩, ⟨"map", ⟨33, 36⟩⟩⟩),
      some 4⟩,
    ⟨4, .callExpression ⟨⟨13, 45⟩, some 3, [.arrowFunctionExpression ⟨37, 44⟩]⟩,
      some 5⟩,
    ⟨5, .other, none⟩]⟩

/-- The graph of `const x = new Array(5).#m(function(){})`: the constructor
(node 0) inside the private-field access `new Array(5).#m` (node 1) inside
the call carrying a function-expression first argument (node 2). -/
def newArrayPrivateFieldCtx : Ctx :=
  ⟨[⟨0, .newExpression ⟨⟨10, 22⟩, .ident "Array", [.numericLiteral ⟨20, 21⟩]⟩, some 1⟩,
    ⟨1, .memberExpression (.privateFieldExpression ⟨⟨10, 25⟩, ⟨"m", ⟨23, 25⟩⟩⟩),
      some 2⟩,
    ⟨2, .callExpression ⟨⟨10, 38⟩, some 1, [.functionExpression ⟨26, 38⟩]⟩, some 3⟩,
    ⟨3, .other, none⟩]⟩

/-- Node 0 of `newArrayPrivateFieldCtx`. -/
def newArrayPrivateNode : AstNode :=
  ⟨0, .newExpression ⟨⟨10, 22⟩, .ident "Array", [.numericLiteral ⟨20, 21⟩]⟩, some 1⟩

/-- A one-node graph whose only node is a `new Array(5)` expression at the
root (no parent at all). -/
def rootOnlyCtx : Ctx := ⟨[⟨0, .newExpression newArrayFiveExpr, none⟩]⟩

/-- The root node of `rootOnlyCtx`. -/
def rootNewArrayNode : AstNode := ⟨0, .newExpression newArrayFiveExpr, none⟩

/-! ## Claims -/

/-- C6: the stored `ARRAY_METHODS` sequence equals its own sorted form —
sorting it by the string order its binary search uses yields the identical
sequence (the invariant the standalone `test_array_is_sorted` check
asserts). -/
theorem array_methods_equals_own_sorted_form :
    sortStrings ARRAY_METHODS = ARRAY_METHODS := by decide

/-- C7 (failing evaluation): `ARRAY_METHODS` is not a sequence of pairwise
distinct strings — the entries at indices 20 and 21 are both `"push"`, so
the table has a duplicate. -/
theorem array_methods_push_appears_twice :
    ARRAY_METHODS[20]? = some "push" ∧ ARRAY_METHODS[21]? = some "push" ∧
    ¬ ARRAY_METHODS.Nodup := by decide

/-- C8: the array-method vocabulary excludes `toString`, `toLocaleString`,
`findLast` and `with` (membership tests return not-found) but includes
`@@iterator`; consequently `arguments.toString()`, `arguments.findLast(cb)`
and `arguments.with(1, 1)` each produce zero diagnostics. -/
theorem array_method_vocabulary_membership :
    (binarySearch ARRAY_METHODS "toString").isSome = false ∧
    (binarySearch ARRAY_METHODS "toLocaleString").isSome = false ∧
    (binarySearch ARRAY_METHODS "findLast").isSome = false ∧
    (binarySearch ARRAY_METHODS "with").isSome = false ∧
    (binarySearch ARRAY_METHODS "@@iterator").isSome = true ∧
    BadArrayMethodOnArguments.run
      (argumentsStaticCallCtx "toString" ⟨15, 33⟩ ⟨25, 33⟩
        [.arrowFunctionExpression ⟨34, 42⟩]) argumentsIdNode = [] ∧
    BadArrayMethodOnArguments.run
      (argumentsStaticCallCtx "findLast" ⟨15, 33⟩ ⟨25, 33⟩
        [.arrowFunctionExpression ⟨34, 42⟩]) argumentsIdNode = [] ∧
    BadArrayMethodOnArguments.run
      (argumentsStaticCallCtx "with" ⟨15, 29⟩ ⟨25, 29⟩
        [.numericLiteral ⟨30, 31⟩, .numericLiteral ⟨33, 34⟩])
      argumentsIdNode = [] := by decide

/-- C3 (failing evaluation): for `function fn() {arguments.map(() => {})}`
exactly one diagnostic is produced and its help text names `map`, but its
single label is the span of the whole member expression `arguments.map`
(bytes 15-28) — the `expr.span` the code passes — and not the property-name
span of `map` (bytes 25-28) that the claim requires. -/
theorem bad_array_label_is_member_expression_span :
    BadArrayMethodOnArguments.run
        (argumentsStaticCallCtx "map" ⟨15, 28⟩ ⟨25, 28⟩
          [.arrowFunctionExpression ⟨29, 37⟩]) argumentsIdNode
      = [badArrayMethodOnArgumentsDiagnostic "map" ⟨15, 28⟩] ∧
    (badArrayMethodOnArgumentsDiagnostic "map" ⟨15, 28⟩).labels = [⟨15, 28⟩] ∧
    (⟨15, 28⟩ : Span) ≠ (⟨25, 28⟩ : Span) := by decide

/-- C2 (counterexample): in `function fn() { foo(arguments.map) }` the member
access `arguments.map` (node 2) is one of the call's arguments, and the
call's callee is the identifier `foo` (node 0) — yet the detector emits a
diagnostic, so a diagnostic is not produced only when the callee is the
property access itself. -/
theorem static_access_flagged_as_call_argument :
    fooCallExpr.callee = some 0 ∧
    fooCallExpr.arguments = [.exprRef 2] ∧
    fooCallMemberNode.id = 2 ∧
    BadArrayMethodOnArguments.run fooCallCtx fooCallArgumentsNode
      = [badArrayMethodOnArgumentsDiagnostic "map" ⟨19, 32⟩] := by decide

/-- C1: when the `arguments` identifier's parent is a computed member access,
the detector requires the great-grandparent to be a call expression (and for
a static access, the grandparent); a computed access whose great-grandparent
is not a call expression produces no diagnostic even when its grandparent is
one, while a computed access whose great-grandparent is a call expression is
flagged. -/
theorem computed_access_needs_call_great_grandparent
    (ctx : Ctx) (node parent grandparent : AstNode)
    (hp : ctx.parentNode node = some parent)
    (hg : ctx.parentNode parent = some grandparent) :
    ((∃ e, parent.kind = .computedMemberExpression e) →
      (∀ c : CallExpr, ctx.parentKind grandparent ≠ some (.callExpression c)) →
      BadArrayMethodOnArguments.run ctx node = []) ∧
    ((∃ m, parent.kind = .memberExpression m) →
      (∀ c : CallExpr, grandparent.kind ≠ .callExpression c) →
      BadArrayMethodOnArguments.run ctx node = []) ∧
    BadArrayMethodOnArguments.run computedGrandparentCallCtx
      ⟨0, .identifierReference "arguments", some 1⟩ = [] ∧
    BadArrayMethodOnArguments.run computedWrappedCallCtx
      ⟨0, .identifierReference "arguments", some 1⟩
      = [badArrayMethodOnArgumentsDiagnostic "map" computedMapAccess.span] := by
  refine ⟨?_, ?_, by decide, by decide⟩
  · rintro ⟨e, hk⟩ hnc
    cases hid : node.kind.isSpecificIdReference "arguments" with
    | false => simp [BadArrayMethodOnArguments.run, hid]
    | true =>
      cases hpk : ctx.parentKind grandparent with
      | none =>
        simp [BadArrayMethodOnArguments.run, hid, hp, hk, hg, hpk,
          isMemberOrComputedKind, isComputedMemberExprKind]
      | some k =>
        cases k <;>
          first
          | exact absurd hpk (hnc _)
          | simp [BadArrayMethodOnArguments.run, hid, hp, hk, hg, hpk,
              isMemberOrComputedKind, isComputedMemberExprKind]
  · rintro ⟨m, hk⟩ hnc
    cases hid : node.kind.isSpecificIdReference "arguments" with
    | false => simp [BadArrayMethodOnArguments.run, hid]
    | true =>
      cases hgk : grandparent.kind <;>
        first
        | exact absurd hgk (hnc _)
        | simp [BadArrayMethodOnArguments.run, hid, hp, hk, hg, hgk,
            isMemberOrComputedKind, isComputedMemberExprKind]

/-- Witness for C1: on the graph whose computed access has the call as its
grandparent but not as its great-grandparent, the detector emits nothing. -/
theorem computed_access_needs_call_great_grandparent_witness :
    BadArrayMethodOnArguments.run computedGrandparentCallCtx
      ⟨0, .identifierReference "arguments", some 1⟩ = [] :=
  (computed_access_needs_call_great_grandparent computedGrandparentCallCtx
    ⟨0, .identifierReference "arguments", some 1⟩
    ⟨1, .computedMemberExpression computedMapAccess, some 2⟩
    ⟨2, .callExpression ⟨⟨15, 41⟩, some 1, [.arrowFunctionExpression ⟨32, 40⟩]⟩,
      some 3⟩
    rfl rfl).1 ⟨computedMapAccess, rfl⟩
    (fun _c h => AstKind.noConfusion (Option.some.inj h))

/-- C2 (amended): a statically-named vocabulary access on `arguments` is
flagged whenever the grandparent node is a call expression, in whatever
position the property access occupies in that call — the callee is never
inspected. -/
theorem static_access_flagged_for_any_call_grandparent
    (ctx : Ctx) (node parent grandparent : AstNode)
    (e : StaticMemberExpr) (c : CallExpr)
    (hid : node.kind = .identifierReference "arguments")
    (hp : ctx.parentNode node = some parent)
    (hk : parent.kind = .memberExpression (.staticMemberExpression e))
    (hg : ctx.parentNode parent = some grandparent)
    (hgk : grandparent.kind = .callExpression c)
    (hfound : (binarySearch ARRAY_METHODS e.property.name).isSome = true) :
    BadArrayMethodOnArguments.run ctx node =
      [badArrayMethodOnArgumentsDiagnostic e.property.name e.span] := by
  simp [BadArrayMethodOnArguments.run, BadArrayMethodOnArguments.emitDiagnostics,
    hid, hp, hk, hg, hgk, hfound, AstKind.isSpecificIdReference,
    isMemberOrComputedKind, isComputedMemberExprKind]

/-- Witness for the amended C2: `foo(arguments.map)` is flagged although the
access is an argument of the call, not its callee. -/
theorem static_access_flagged_for_any_call_grandparent_witness :
    BadArrayMethodOnArguments.run fooCallCtx fooCallArgumentsNode =
      [badArrayMethodOnArgumentsDiagnostic "map" ⟨19, 32⟩] :=
  static_access_flagged_for_any_call_grandparent fooCallCtx
    fooCallArgumentsNode fooCallMemberNode
    ⟨3, .callExpression fooCallExpr, some 4⟩
    ⟨⟨19, 32⟩, ⟨"map", ⟨29, 32⟩⟩⟩ fooCallExpr
    rfl rfl rfl rfl rfl (by decide)

/-- C5: a computed property access on `arguments` whose bracketed key does
not resolve to a literal string at analysis time produces no diagnostic,
whatever the rest of the graph looks like. -/
theorem unresolvable_computed_key_no_diagnostic
    (ctx : Ctx) (node parent : AstNode) (e : ComputedMemberExpr)
    (hp : ctx.parentNode node = some parent)
    (hk : parent.kind = .computedMemberExpression e)
    (hn : staticPropertyName e.expression = none) :
    BadArrayMethodOnArguments.run ctx node = [] := by
  cases hid : node.kind.isSpecificIdReference "arguments" with
  | false => simp [BadArrayMethodOnArguments.run, hid]
  | true =>
    cases hg : ctx.parentNode parent with
    | none =>
      simp [BadArrayMethodOnArguments.run, hid, hp, hk, hg,
        isMemberOrComputedKind, isComputedMemberExprKind]
    | some grandparent =>
      simp only [BadArrayMethodOnArguments.run, hid, hp, hk, hg,
        isMemberOrComputedKind, isComputedMemberExprKind,
        BadArrayMethodOnArguments.emitDiagnostics, hn]
      split <;> simp [BadArrayMethodOnArguments.emitDiagnostics, hn]

/-- Witness for C5: `arguments[key](() => \x7b\x7d)` — an identifier key in
call position — produces no diagnostic. -/
theorem unresolvable_computed_key_no_diagnostic_witness :
    BadArrayMethodOnArguments.run computedIdentKeyCtx
      ⟨0, .identifierReference "arguments", some 1⟩ = [] :=
  unresolvable_computed_key_no_diagnostic computedIdentKeyCtx
    ⟨0, .identifierReference "arguments", some 1⟩
    ⟨1, .computedMemberExpression ⟨⟨15, 29⟩, .identifierKey "key" ⟨25, 28⟩⟩, some 2⟩
    ⟨⟨15, 29⟩, .identifierKey "key" ⟨25, 28⟩⟩
    rfl rfl rfl

/-- C4: `new Array(<N>)` with exactly one numeric-literal argument, whose
parent is a member access whose next ancestor is a call expression with a
function or arrow-function first argument, yields exactly one diagnostic
labeled with the access's property span and the constructor span; multiple
constructor arguments, a non-numeric-literal single argument, or a missing /
non-function first call argument yield zero diagnostics, as does the
intervening-call shape `new Array(5).fill().map(_ => \x7b\x7d)`. -/
theorem uninvoked_array_callback_shapes :
    (∀ (ctx : Ctx) (node memberNode : AstNode) (ne : NewExpr)
      (m : MemberExpression) (c : CallExpr) (numSpan : Span),
      node.kind = .newExpression ne →
      ne.callee = .ident "Array" →
      ne.arguments = [.numericLiteral numSpan] →
      ctx.parentNode node = some memberNode →
      memberNode.kind = .memberExpression m →
      ctx.parentKind memberNode = some (.callExpression c) →
      firstArgIsFunctionLike c.arguments = true →
      UninvokedArrayCallback.run ctx node =
        [uninvokedArrayCallbackDiagnostic (memberPropertySpan m) ne.span]) ∧
    (∀ (ctx : Ctx) (node : AstNode) (ne : NewExpr),
      node.kind = .newExpression ne →
      ne.arguments.length ≠ 1 →
      UninvokedArrayCallback.run ctx node = []) ∧
    (∀ (ctx : Ctx) (node : AstNode) (ne : NewExpr),
      node.kind = .newExpression ne →
      firstArgIsNumericLiteral ne.arguments = false →
      UninvokedArrayCallback.run ctx node = []) ∧
    (∀ (ctx : Ctx) (node memberNode : AstNode) (ne : NewExpr)
      (m : MemberExpression) (c : CallExpr),
      node.kind = .newExpression ne →
      ctx.parentNode node = some memberNode →
      memberNode.kind = .memberExpression m →
      ctx.parentKind memberNode = some (.callExpression c) →
      firstArgIsFunctionLike c.arguments = false →
      UninvokedArrayCallback.run ctx node = []) ∧
    UninvokedArrayCallback.run newArrayMapCtx newArrayNode =
      [uninvokedArrayCallbackDiagnostic ⟨26, 29⟩ ⟨13, 25⟩] ∧
    UninvokedArrayCallback.run newArrayFillMapCtx newArrayNode = [] := by
  refine ⟨?_, ?_, ?_, ?_, by decide, by decide⟩
  · intro ctx node memberNode ne m c numSpan h1 h2 h3 h4 h5 h6 h7
    simp [UninvokedArrayCallback.run, h1, h2, h3, h4, h5, h6, h7,
      NewCallee.isSpecificId, firstArgIsNumericLiteral]
  · intro ctx node ne h1 h2
    cases hc : ne.callee.isSpecificId "Array" with
    | false => simp [UninvokedArrayCallback.run, h1, hc]
    | true => simp [UninvokedArrayCallback.run, h1, hc, h2]
  · intro ctx node ne h1 hnum
    simp [UninvokedArrayCallback.run, h1, hnum]
  · intro ctx node memberNode ne m c h1 h4 h5 h6 hfn
    simp [UninvokedArrayCallback.run, h1, h4, h5, h6, hfn]

/-- Witness for C4: `const list = new Array(5).map(_ => \x7b\x7d)` yields the
one diagnostic whose labels are the `map` property span and the
`new Array(5)` span. -/
theorem uninvoked_array_callback_shapes_witness :
    UninvokedArrayCallback.run newArrayMapCtx newArrayNode =
      [uninvokedArrayCallbackDiagnostic ⟨26, 29⟩ ⟨13, 25⟩] :=
  uninvoked_array_callback_shapes.1 newArrayMapCtx newArrayNode
    ⟨1, .memberExpression (.staticMemberExpression ⟨⟨13, 29⟩, ⟨"map", ⟨26, 29⟩⟩⟩),
      some 2⟩
    newArrayFiveExpr
    (.staticMemberExpression ⟨⟨13, 29⟩, ⟨"map", ⟨26, 29⟩⟩⟩)
    ⟨⟨13, 38⟩, some 1, [.arrowFunctionExpression ⟨30, 37⟩]⟩ ⟨23, 24⟩
    rfl rfl rfl rfl rfl rfl rfl

/-- C10: a `new Array(<N>)` constructor (single numeric-literal argument)
whose parent is a private-field member access whose parent call carries a
function or arrow-function first argument is flagged, with the private field
name's span as the callback-side label. -/
theorem private_field_access_flagged
    (ctx : Ctx) (node memberNode : AstNode) (ne : NewExpr)
    (pfe : PrivateFieldExpr) (c : CallExpr) (numSpan : Span)
    (h1 : node.kind = .newExpression ne)
    (h2 : ne.callee = .ident "Array")
    (h3 : ne.arguments = [.numericLiteral numSpan])
    (h4 : ctx.parentNode node = some memberNode)
    (h5 : memberNode.kind = .memberExpression (.privateFieldExpression pfe))
    (h6 : ctx.parentKind memberNode = some (.callExpression c))
    (h7 : firstArgIsFunctionLike c.arguments = true) :
    UninvokedArrayCallback.run ctx node =
      [uninvokedArrayCallbackDiagnostic pfe.field.span ne.span] := by
  simp [UninvokedArrayCallback.run, h1, h2, h3, h4, h5, h6, h7,
    NewCallee.isSpecificId, firstArgIsNumericLiteral, memberPropertySpan]

/-- Witness for C10: `new Array(5).#m(function(){})` is flagged, with the
span of `#m` as the first label. -/
theorem private_field_access_flagged_witness :
    UninvokedArrayCallback.run newArrayPrivateFieldCtx newArrayPrivateNode =
      [uninvokedArrayCallbackDiagnostic ⟨23, 25⟩ ⟨10, 22⟩] :=
  private_field_access_flagged newArrayPrivateFieldCtx newArrayPrivateNode
    ⟨1, .memberExpression (.privateFieldExpression ⟨⟨10, 25⟩, ⟨"m", ⟨23, 25⟩⟩⟩),
      some 2⟩
    ⟨⟨10, 22⟩, .ident "Array", [.numericLiteral ⟨20, 21⟩]⟩
    ⟨⟨10, 25⟩, ⟨"m", ⟨23, 25⟩⟩⟩
    ⟨⟨10, 38⟩, some 1, [.functionExpression ⟨26, 38⟩]⟩ ⟨20, 21⟩
    rfl rfl rfl rfl rfl rfl rfl

/-- C9: over every node graph both run operations are total Lean functions
that emit at most one diagnostic, and when the ancestor walk runs past the
root (the node has no parent) each returns normally with no diagnostic. -/
theorem detectors_total_on_every_graph (ctx : Ctx) (node : AstNode) :
    (BadArrayMethodOnArguments.run ctx node).length ≤ 1 ∧
    (UninvokedArrayCallback.run ctx node).length ≤ 1 ∧
    (ctx.parentNode node = none →
      BadArrayMethodOnArguments.run ctx node = [] ∧
      UninvokedArrayCallback.run ctx node = []) := by
  refine ⟨?_, ?_, fun hroot => ⟨?_, ?_⟩⟩
  · unfold BadArrayMethodOnArguments.run BadArrayMethodOnArguments.emitDiagnostics
    repeat' split <;> try simp
  · unfold UninvokedArrayCallback.run
    repeat' split <;> try simp
  · simp [BadArrayMethodOnArguments.run, hroot]
  · cases hk : node.kind <;> simp [UninvokedArrayCallback.run, hk, hroot]

/-- Witness for C9: on the one-node graph whose `new Array(5)` sits at the
root, both detectors return normally with no diagnostic. -/
theorem detectors_total_on_every_graph_witness :
    BadArrayMethodOnArguments.run rootOnlyCtx rootNewArrayNode = [] ∧
    UninvokedArrayCallback.run rootOnlyCtx rootNewArrayNode = [] :=
  (detectors_total_on_every_graph rootOnlyCtx rootNewArrayNode).2.2 rfl
